import Mathlib

/-!
Shallow embedding of the aircraft-tracker ingestion and proximity engine
(`AircraftService` and the SQLite store layer), together with theorems
checking the specification's claims against it.

Numeric values flowing through the JavaScript code are modelled as `ℚ`
(exact rationals) except for the haversine distance computation, which uses
transcendental functions and is modelled over `ℝ`.  JavaScript truthiness
on nullable numbers (`x || null`, `if (x && y)`) is modelled explicitly:
`null` and `0` are falsy, every other number is truthy; the empty string is
falsy, every other string is truthy.
-/

/-! ## JavaScript value helpers

`jsOrNullNum x` models the expression `x || null` where `x` is a nullable
number: `0` is falsy in JavaScript, so both `null` and `0` become `null`.
`jsOrNullStr` is the same for nullable strings (the empty string is falsy).
`jsOrFalse` models `x || false` for a nullable boolean.
`jsTruthyNum` / `jsTruthyStr` model using a nullable value as an `if` /
`&&` condition. -/

def jsOrNullNum (x : Option ℚ) : Option ℚ :=
  match x with
  | none => none
  | some v => if v = 0 then none else some v

def jsOrNullStr (x : Option String) : Option String :=
  match x with
  | none => none
  | some s => if s = "" then none else some s

def jsOrFalse (x : Option Bool) : Bool :=
  match x with
  | none => false
  | some b => b

def jsTruthyNum (x : Option ℚ) : Bool :=
  match x with
  | none => false
  | some v => v ≠ 0

def jsTruthyStr (x : Option String) : Bool :=
  match x with
  | none => false
  | some s => s ≠ ""

/-! ## Raw observations and the canonical aircraft record -/

/-- One OpenSky state vector: the positional array `state[0] .. state[17]`
as received from the provider, each entry possibly `null`/absent. -/
structure OpenSkyState where
  s0 : Option String := none -- icao24
  s1 : Option String := none -- callsign
  s2 : Option String := none -- origin country
  s3 : Option ℚ := none -- time_position
  s4 : Option ℚ := none -- last contact (time_velocity)
  s5 : Option ℚ := none -- longitude
  s6 : Option ℚ := none -- latitude
  s7 : Option ℚ := none -- baro altitude
  s8 : Option Bool := none -- on_ground
  s9 : Option ℚ := none -- velocity
  s10 : Option ℚ := none -- true_track
  s11 : Option ℚ := none -- vertical_rate
  s12 : Option (List String) := none -- sensors
  s13 : Option ℚ := none -- geo_altitude
  s14 : Option String := none -- squawk
  s15 : Option Bool := none -- spi
  s16 : Option ℚ := none -- position_source
  s17 : Option ℚ := none -- category
  deriving Repr

/-- The canonical aircraft record produced by the transforms and written to
the `aircraft` table by `updateDatabase`. -/
structure AircraftRecord where
  icao24 : Option String := none
  callsign : Option String := none
  origin_country : Option String := none
  time_position : Option ℚ := none
  time_velocity : Option ℚ := none
  longitude : Option ℚ := none
  latitude : Option ℚ := none
  altitude : Option ℚ := none
  on_ground : Bool := false
  velocity : Option ℚ := none
  true_track : Option ℚ := none
  vertical_rate : Option ℚ := none
  sensors : Option String := none
  geo_altitude : Option ℚ := none
  squawk : Option String := none
  spi : Bool := false
  position_source : Option ℚ := none
  category : Option ℚ := none
  deriving DecidableEq, Repr

/-- `transformOpenSkyData`, field by field.  Every `state[i] || null`
becomes `jsOrNull…`, `state[8] || false` becomes `jsOrFalse`, and
`state[12] ? state[12].join(',') : null` joins the sensor list (any array,
even the empty one, is truthy in JavaScript). -/
def transformOpenSkyData (state : OpenSkyState) : AircraftRecord where
  icao24 := state.s0
  callsign := jsOrNullStr state.s1
  origin_country := jsOrNullStr state.s2
  time_position := jsOrNullNum state.s3
  time_velocity := jsOrNullNum state.s4
  longitude := jsOrNullNum state.s5
  latitude := jsOrNullNum state.s6
  altitude := jsOrNullNum state.s7
  on_ground := jsOrFalse state.s8
  velocity := jsOrNullNum state.s9
  true_track := jsOrNullNum state.s10
  vertical_rate := jsOrNullNum state.s11
  sensors := match state.s12 with
    | some l => some (String.intercalate "," l)
    | none => none
  geo_altitude := jsOrNullNum state.s13
  squawk := jsOrNullStr state.s14
  spi := jsOrFalse state.s15
  position_source := jsOrNullNum state.s16
  category := jsOrNullNum state.s17

/-! ## The store: `aircraft` table and `updateDatabase`

A row of the `aircraft` table: the canonical record plus `last_updated`,
which carries `DEFAULT CURRENT_TIMESTAMP` and is therefore set to the
ingestion time by every `INSERT OR REPLACE` (the statement does not list
the column, and REPLACE deletes the old row and inserts a fresh one, so
the default is re-evaluated on every write).  Time is modelled as `ℕ`. -/

structure Row where
  record : AircraftRecord
  last_updated : ℕ
  deriving DecidableEq, Repr

/-- The guard `if (aircraft.icao24 && aircraft.latitude && aircraft.longitude)`
in `updateDatabase`: all three fields must be JavaScript-truthy. -/
def validAircraft (a : AircraftRecord) : Bool :=
  jsTruthyStr a.icao24 && jsTruthyNum a.latitude && jsTruthyNum a.longitude

/-- `INSERT OR REPLACE INTO aircraft …` against the `icao24 TEXT UNIQUE`
column: when `icao24` is non-NULL the existing row with that key (if any)
is deleted and the new row appended; SQLite's UNIQUE constraint does not
apply between NULLs, so a NULL-keyed insert would simply append.
`last_updated` takes its `CURRENT_TIMESTAMP` default `t`. -/
def insertOrReplace (t : ℕ) (a : AircraftRecord) (store : List Row) : List Row :=
  match a.icao24 with
  | none => store ++ [⟨a, t⟩]
  | some _ => store.filter (fun r => r.record.icao24 ≠ a.icao24) ++ [⟨a, t⟩]

/-- `updateDatabase`: run the prepared upsert for every record that passes
the truthiness guard, in list order, at ingestion time `t`. -/
def updateDatabase (t : ℕ) (aircraftData : List AircraftRecord)
    (store : List Row) : List Row :=
  aircraftData.foldl
    (fun st a => if validAircraft a then insertOrReplace t a st else st) store

/-! ## The fetch orchestrator: `fetchAircraftData`

An adapter call either fails or yields a list of (already transformed)
records; `fetchFromOpenSky` and `fetchFromAviationStack` both catch their
own errors and return `[]`, so a failure contributes the empty list. -/

inductive AdapterResult where
  | ok (records : List AircraftRecord)
  | err
  deriving DecidableEq, Repr

/-- The list an adapter call hands back to `fetchAircraftData`: its records
on success, `[]` on a caught failure. -/
def AdapterResult.records : AdapterResult → List AircraftRecord
  | .ok l => l
  | .err => []

/-- One cycle of `fetchAircraftData` at ingestion time `t`:
try OpenSky first; if it yielded a non-empty list, commit it and stop;
otherwise, only when `AVIATION_API_KEY` is configured (`hasKey`), try
Aviation Stack and commit a non-empty result; else leave the store as is. -/
def fetchAircraftData (t : ℕ) (hasKey : Bool)
    (opensky aviation : AdapterResult) (store : List Row) : List Row :=
  let aircraftData := opensky.records
  if aircraftData.length > 0 then
    updateDatabase t aircraftData store
  else if hasKey then
    let aviationData := aviation.records
    if aviationData.length > 0 then
      updateDatabase t aviationData store
    else
      store
  else
    store

/-! ## The scheduler: `startAircraftUpdates` / `stopAircraftUpdates`

State of the service process: the `isRunning` flag, whether the cron job
has been scheduled, and how many `fetchAircraftData` cycles are currently
in flight.  Events: calling `startAircraftUpdates` (guarded by
`isRunning`; fires one immediate fetch and schedules the cron job),
a cron tick (the callback `() => { this.fetchAircraftData(); }` invokes a
fetch unconditionally — it is not awaited and there is no per-cycle
guard), a fetch cycle completing, and `stopAircraftUpdates` (clears the
flag only; the cron job stays scheduled). -/

structure SchedulerState where
  isRunning : Bool
  scheduled : Bool
  inFlight : ℕ
  deriving DecidableEq, Repr

inductive SchedulerEvent where
  | start
  | tick
  | finish
  | stop
  deriving DecidableEq, Repr

def schedulerInit : SchedulerState := ⟨false, false, 0⟩

/-- One transition of the service, transcribed from
`startAircraftUpdates`, the cron callback, and `stopAircraftUpdates`. -/
def schedulerStep (s : SchedulerState) : SchedulerEvent → SchedulerState
  | .start =>
    if s.isRunning then s
    else { isRunning := true, scheduled := true, inFlight := s.inFlight + 1 }
  | .tick =>
    if s.scheduled then { s with inFlight := s.inFlight + 1 } else s
  | .finish =>
    { s with inFlight := s.inFlight - 1 }
  | .stop =>
    { s with isRunning := false }

/-- Run a sequence of events from a state. -/
def schedulerRun (s : SchedulerState) : List SchedulerEvent → SchedulerState :=
  List.foldl schedulerStep s

/-- A state is reachable when some event sequence leads to it from the
initial state. -/
def SchedulerReachable (s : SchedulerState) : Prop :=
  ∃ evs : List SchedulerEvent, schedulerRun schedulerInit evs = s

/-! ## Proximity engine: tiered visibility filter and distance sort

From `getAircraftNearLocation`: each candidate row (already restricted by
the SQL query to `on_ground = 0`, `altitude > 0`, non-null coordinates)
carries a computed `distance_km`; the filter keeps a candidate when any of
the five tiers holds, and the kept list is sorted ascending by
`distance_km` (`visibleAircraft.sort((a, b) => a.distance_km - b.distance_km)`). -/

/-- A flying candidate as seen by the visibility filter: its computed
distance from the query point and its altitude column. -/
structure Candidate where
  distance_km : ℚ
  altitude : ℚ
  deriving DecidableEq, Repr

/-- The tiered visibility predicate of `getAircraftNearLocation`,
transcribed clause by clause from the `filter` callback. -/
def visible (radiusKm : ℚ) (aircraft : Candidate) : Bool :=
  if aircraft.distance_km ≤ radiusKm then true
  else if aircraft.distance_km ≤ 200 then true
  else if 10500 < aircraft.altitude ∧ aircraft.distance_km ≤ 400 then true
  else if aircraft.distance_km ≤ radiusKm * 2 then true
  else if 8000 < aircraft.altitude ∧ aircraft.distance_km ≤ 300 then true
  else false

/-- The filter-then-sort tail of `getAircraftNearLocation`: keep the
visible candidates and sort them ascending by `distance_km`. -/
def getAircraftNearLocation (radiusKm : ℚ) (candidates : List Candidate) :
    List Candidate :=
  (candidates.filter (visible radiusKm)).mergeSort
    (fun a b => a.distance_km ≤ b.distance_km)

/-! ## Haversine distance: `calculateDistance` over `ℝ` -/

/-- `toRadians`, as in the source. -/
noncomputable def toRadians (degrees : ℝ) : ℝ :=
  degrees * (Real.pi / 180)

/-- JavaScript's `Math.atan2(y, x)`, over the reals (the IEEE special
cases for infinities and signed zeros collapse in `ℝ`). -/
noncomputable def atan2 (y x : ℝ) : ℝ :=
  if 0 < x then Real.arctan (y / x)
  else if x < 0 then
    (if 0 ≤ y then Real.arctan (y / x) + Real.pi
     else Real.arctan (y / x) - Real.pi)
  else
    (if 0 < y then Real.pi / 2
     else if y < 0 then -(Real.pi / 2)
     else 0)

/-- `calculateDistance`: the haversine formula with Earth radius 6371 km,
transcribed from the source. -/
noncomputable def calculateDistance (lat1 lon1 lat2 lon2 : ℝ) : ℝ :=
  let R : ℝ := 6371
  let dLat := toRadians (lat2 - lat1)
  let dLon := toRadians (lon2 - lon1)
  let a := Real.sin (dLat / 2) * Real.sin (dLat / 2) +
    Real.cos (toRadians lat1) * Real.cos (toRadians lat2) *
    Real.sin (dLon / 2) * Real.sin (dLon / 2)
  let c := 2 * atan2 (Real.sqrt a) (Real.sqrt (1 - a))
  R * c

/-! ## Theorems -/

/-- The visibility filter, as a five-way disjunction. -/
theorem visible_iff (radiusKm : ℚ) (c : Candidate) :
    visible radiusKm c = true ↔
      (c.distance_km ≤ radiusKm ∨ c.distance_km ≤ 200 ∨
       (10500 < c.altitude ∧ c.distance_km ≤ 400) ∨
       c.distance_km ≤ radiusKm * 2 ∨
       (8000 < c.altitude ∧ c.distance_km ≤ 300)) := by
  unfold visible
  split_ifs with h1 h2 h3 h4 h5
  · exact iff_of_true rfl (Or.inl h1)
  · exact iff_of_true rfl (Or.inr (Or.inl h2))
  · exact iff_of_true rfl (Or.inr (Or.inr (Or.inl h3)))
  · exact iff_of_true rfl (Or.inr (Or.inr (Or.inr (Or.inl h4))))
  · exact iff_of_true rfl (Or.inr (Or.inr (Or.inr (Or.inr h5))))
  · simp only [Bool.false_eq_true, false_iff]
    push_neg at h1 h2 h3 h4 h5 ⊢
    refine ⟨h1, h2, h3, h4, h5⟩

/-- C1: the nearby operation includes a flying candidate iff one of the
five visibility tiers holds, and the returned list is sorted ascending by
`distance_km`. -/
theorem claim1_visibility_filter_and_sort (radiusKm : ℚ)
    (candidates : List Candidate) :
    (∀ c ∈ candidates,
      (c ∈ getAircraftNearLocation radiusKm candidates ↔
        (c.distance_km ≤ radiusKm ∨ c.distance_km ≤ 200 ∨
         (10500 < c.altitude ∧ c.distance_km ≤ 400) ∨
         c.distance_km ≤ radiusKm * 2 ∨
         (8000 < c.altitude ∧ c.distance_km ≤ 300)))) ∧
    List.Sorted (fun a b => a.distance_km ≤ b.distance_km)
      (getAircraftNearLocation radiusKm candidates) := by
  constructor
  · intro c hc
    rw [← visible_iff radiusKm c]
    unfold getAircraftNearLocation
    rw [List.mem_mergeSort, List.mem_filter]
    exact ⟨fun h => h.2, fun h => ⟨hc, h⟩⟩
  · unfold getAircraftNearLocation
    have h := @List.sorted_mergeSort Candidate
      (fun a b : Candidate => decide (a.distance_km ≤ b.distance_km))
      (fun a b c hab hbc => by
        simp only [decide_eq_true_eq] at *
        exact le_trans hab hbc)
      (fun a b => by
        simp only [Bool.or_eq_true, decide_eq_true_eq]
        exact le_total a.distance_km b.distance_km)
      (candidates.filter (visible radiusKm))
    exact h.imp (fun hab => by simpa using hab)

/-- Witness for C1 at a concrete query. -/
theorem claim1_visibility_filter_and_sort_witness :
    (⟨50, 9000⟩ : Candidate) ∈ getAircraftNearLocation 100 [⟨50, 9000⟩] :=
  ((claim1_visibility_filter_and_sort 100 [⟨50, 9000⟩]).1
    ⟨50, 9000⟩ (by simp)).mpr (Or.inl (by norm_num))

/-- C2 counterexample.  The claim's second scenario forces
`radius_km = 299.99` (`distance_km = radius_km + 0.01 = 300.0`).  At that
radius a candidate at `distance_km = 301` with altitude `8000` is
*included* by the filter (via the `distance_km ≤ radius_km × 2` tier),
refuting "excluded"; and at radius `100` a candidate at `distance_km = 300`
with altitude exactly `8000` is *excluded*, showing the moderate-altitude
tier (`altitude > 8000`, strict) never fires at altitude exactly `8000`,
so the claimed inclusion is not "via the moderate-altitude tier". -/
theorem claim2_counterexample :
    visible (29999/100) ⟨301, 8000⟩ = true ∧
    visible 100 ⟨300, 8000⟩ = false := by
  constructor <;> norm_num [visible]

/-- C2 as amended: a candidate at distance exactly `radius_km` is
included; at the forced radius `299.99`, the candidate at distance `300`
with altitude `8000` is included (via the loose-radius `×2` tier, not the
moderate-altitude tier, which requires altitude strictly above `8000`);
and a candidate at `distance_km = 301` with altitude `8000` is excluded
exactly when `radius_km × 2 < 301`. -/
theorem claim2_amended (radiusKm : ℚ) (h0 : 0 ≤ radiusKm) (d a : ℚ) :
    (d = radiusKm → visible radiusKm ⟨d, a⟩ = true) ∧
    (radiusKm * 2 < 301 → visible radiusKm ⟨301, 8000⟩ = false) ∧
    visible (29999/100) ⟨300, 8000⟩ = true := by
  refine ⟨fun hd => ?_, fun hlt => ?_, by norm_num [visible]⟩
  · subst hd
    simp [visible]
  · rw [← Bool.not_eq_true]
    intro hvis
    rcases (visible_iff _ _).mp hvis with h | h | h | h | h
    · norm_num at h
      linarith
    · norm_num at h
    · norm_num at h
    · norm_num at h
      linarith
    · norm_num at h

/-- Witness for the amended C2 at the default radius 100. -/
theorem claim2_amended_witness :
    visible 100 ⟨100, 0⟩ = true ∧ visible 100 ⟨301, 8000⟩ = false :=
  ⟨(claim2_amended 100 (by norm_num) 100 0).1 rfl,
   (claim2_amended 100 (by norm_num) 100 0).2.1 (by norm_num)⟩

/-- The haversine intermediate `a` is unchanged when the two points are
swapped: `sin²` is even and the `cos` factors commute. -/
theorem haversine_a_symm (lat1 lon1 lat2 lon2 : ℝ) :
    Real.sin (toRadians (lat2 - lat1) / 2) * Real.sin (toRadians (lat2 - lat1) / 2) +
      Real.cos (toRadians lat1) * Real.cos (toRadians lat2) *
      Real.sin (toRadians (lon2 - lon1) / 2) * Real.sin (toRadians (lon2 - lon1) / 2) =
    Real.sin (toRadians (lat1 - lat2) / 2) * Real.sin (toRadians (lat1 - lat2) / 2) +
      Real.cos (toRadians lat2) * Real.cos (toRadians lat1) *
      Real.sin (toRadians (lon1 - lon2) / 2) * Real.sin (toRadians (lon1 - lon2) / 2) := by
  have e1 : toRadians (lat1 - lat2) = -(toRadians (lat2 - lat1)) := by
    unfold toRadians; ring
  have e2 : toRadians (lon1 - lon2) = -(toRadians (lon2 - lon1)) := by
    unfold toRadians; ring
  rw [e1, e2, neg_div, neg_div, Real.sin_neg, Real.sin_neg]
  ring

/-- C8: `calculateDistance` is symmetric in its two points, and is `0` on
identical points. -/
theorem claim8_distance_symm_and_zero :
    (∀ lat1 lon1 lat2 lon2 : ℝ,
      calculateDistance lat1 lon1 lat2 lon2 = calculateDistance lat2 lon2 lat1 lon1) ∧
    (∀ lat lon : ℝ, calculateDistance lat lon lat lon = 0) := by
  constructor
  · intro lat1 lon1 lat2 lon2
    simp only [calculateDistance]
    rw [haversine_a_symm]
  · intro lat lon
    have h0 : toRadians 0 = 0 := by unfold toRadians; ring
    simp only [calculateDistance, sub_self, h0, zero_div, Real.sin_zero,
      mul_zero, zero_mul, add_zero, zero_add, sub_zero, Real.sqrt_zero,
      Real.sqrt_one]
    simp [atan2, Real.arctan_zero]

/-- The C3 failing input: an OpenSky state vector with valid identifier and
coordinates whose barometric altitude (`state[7]`) and velocity
(`state[9]`) are exactly `0`. -/
def zeroAltitudeState : OpenSkyState :=
  { s0 := some "abc123", s5 := some 10, s6 := some 20,
    s7 := some 0, s9 := some 0 }

/-- C3, evaluated at the failing input: the claim says an altitude or
velocity of `0` is kept as `0` and stored as `0`; instead
`transformOpenSkyData` (`state[7] || null`, `state[9] || null`) maps both
zeros to null because `0` is falsy in JavaScript, and the stored row keeps
them null. -/
theorem claim3_zero_becomes_null :
    (transformOpenSkyData zeroAltitudeState).altitude = none ∧
    (transformOpenSkyData zeroAltitudeState).velocity = none ∧
    updateDatabase 5 [transformOpenSkyData zeroAltitudeState] [] =
      [⟨transformOpenSkyData zeroAltitudeState, 5⟩] := by
  refine ⟨rfl, rfl, ?_⟩
  decide

/-- Unfolding one step of the upsert loop. -/
theorem updateDatabase_cons (t : ℕ) (a : AircraftRecord)
    (data : List AircraftRecord) (store : List Row) :
    updateDatabase t (a :: data) store =
      updateDatabase t data
        (if validAircraft a then insertOrReplace t a store else store) := rfl

/-- Upserting a single record. -/
theorem updateDatabase_singleton (t : ℕ) (a : AircraftRecord) (store : List Row) :
    updateDatabase t [a] store =
      (if validAircraft a then insertOrReplace t a store else store) := rfl

/-- A record passing the truthiness guard has a non-NULL `icao24`. -/
theorem validAircraft_icao24_isSome (a : AircraftRecord)
    (hv : validAircraft a = true) : ∃ s, a.icao24 = some s := by
  unfold validAircraft jsTruthyStr at hv
  cases h' : a.icao24 with
  | none => rw [h'] at hv; simp at hv
  | some s => exact ⟨s, rfl⟩

/-- Upserting a record whose key appears nowhere in the store appends it. -/
theorem insertOrReplace_fresh (t : ℕ) (a : AircraftRecord) (store : List Row)
    (h : ∀ r ∈ store, r.record.icao24 ≠ a.icao24) :
    insertOrReplace t a store = store ++ [⟨a, t⟩] := by
  unfold insertOrReplace
  split
  · rfl
  · congr 1
    apply List.filter_eq_self.mpr
    intro r hr
    simpa using h r hr

/-- A non-NULL-keyed upsert preserves key uniqueness. -/
theorem insertOrReplace_keys_nodup (t : ℕ) (a : AircraftRecord) (store : List Row)
    (h : (store.map fun r => r.record.icao24).Nodup)
    (hv : validAircraft a = true) :
    ((insertOrReplace t a store).map fun r => r.record.icao24).Nodup := by
  obtain ⟨s, hs⟩ := validAircraft_icao24_isSome a hv
  unfold insertOrReplace
  rw [hs]
  rw [List.map_append, List.nodup_append]
  refine ⟨?_, by simp, ?_⟩
  · exact List.Nodup.sublist ((List.filter_sublist store).map _) h
  · intro x hx
    simp only [List.mem_map, List.mem_filter] at hx
    obtain ⟨r, ⟨_, hr⟩, rfl⟩ := hx
    simp only [List.map_cons, List.map_nil, List.mem_singleton]
    simp only [decide_eq_true_eq] at hr
    simpa [hs] using hr

/-- An ingestion batch preserves key uniqueness. -/
theorem updateDatabase_keys_nodup (t : ℕ) (data : List AircraftRecord)
    (store : List Row)
    (h : (store.map fun r => r.record.icao24).Nodup) :
    ((updateDatabase t data store).map fun r => r.record.icao24).Nodup := by
  induction data generalizing store with
  | nil => exact h
  | cons a data ih =>
    rw [updateDatabase_cons]
    by_cases hv : validAircraft a = true
    · simp only [hv, if_true]
      exact ih _ (insertOrReplace_keys_nodup t a store h hv)
    · simp only [Bool.not_eq_true] at hv
      simp only [hv, Bool.false_eq_true, if_false]
      exact ih _ h

/-- A fetch cycle preserves key uniqueness. -/
theorem fetchAircraftData_keys_nodup (t : ℕ) (hasKey : Bool)
    (opensky aviation : AdapterResult) (store : List Row)
    (h : (store.map fun r => r.record.icao24).Nodup) :
    ((fetchAircraftData t hasKey opensky aviation store).map
      fun r => r.record.icao24).Nodup := by
  simp only [fetchAircraftData]
  split_ifs <;> first | exact updateDatabase_keys_nodup _ _ _ h | exact h

/-- Upserting the same record twice collapses to the later upsert. -/
theorem insertOrReplace_twice (t1 t2 : ℕ) (a : AircraftRecord) (store : List Row)
    (hv : validAircraft a = true) :
    insertOrReplace t2 a (insertOrReplace t1 a store) =
      insertOrReplace t2 a store := by
  obtain ⟨s, hs⟩ := validAircraft_icao24_isSome a hv
  unfold insertOrReplace
  rw [hs]
  rw [List.filter_append, List.filter_filter]
  simp [hs]

/-- The rows of an upsert's output: the untouched survivors plus the newly
written row. -/
theorem mem_insertOrReplace (t : ℕ) (a : AircraftRecord) (store : List Row)
    (r : Row) (hr : r ∈ insertOrReplace t a store) :
    r ∈ store ∨ r = ⟨a, t⟩ := by
  unfold insertOrReplace at hr
  split at hr
  · rcases List.mem_append.mp hr with h | h
    · exact Or.inl h
    · exact Or.inr (List.mem_singleton.mp h)
  · rcases List.mem_append.mp hr with h | h
    · exact Or.inl (List.mem_of_mem_filter h)
    · exact Or.inr (List.mem_singleton.mp h)

/-- Every row of an ingestion batch's output is either an untouched row of
the input store or carries the batch's ingestion time. -/
theorem updateDatabase_last_updated (t : ℕ) (data : List AircraftRecord)
    (store : List Row) :
    ∀ r ∈ updateDatabase t data store, r ∈ store ∨ r.last_updated = t := by
  induction data generalizing store with
  | nil => exact fun r hr => Or.inl hr
  | cons a data ih =>
    intro r hr
    rw [updateDatabase_cons] at hr
    by_cases hv : validAircraft a = true
    · simp only [hv, if_true] at hr
      rcases ih _ r hr with h' | h'
      · rcases mem_insertOrReplace t a store r h' with h'' | h''
        · exact Or.inl h''
        · right; rw [h'']
      · exact Or.inr h'
    · simp only [Bool.not_eq_true] at hv
      simp only [hv, Bool.false_eq_true, if_false] at hr
      exact ih _ r hr

/-- After upserting a valid record, exactly the newly written row carries
its key. -/
theorem insertOrReplace_filter_key (t : ℕ) (a : AircraftRecord) (store : List Row)
    (hv : validAircraft a = true) :
    (insertOrReplace t a store).filter
      (fun r => r.record.icao24 = a.icao24) = [⟨a, t⟩] := by
  obtain ⟨s, hs⟩ := validAircraft_icao24_isSome a hv
  unfold insertOrReplace
  split
  · rename_i hnone
    rw [hs] at hnone
    cases hnone
  · rw [List.filter_append, List.filter_filter]
    have h1 : (store.filter fun r =>
        decide (r.record.icao24 = a.icao24) && decide (r.record.icao24 ≠ a.icao24)) = [] := by
      apply List.filter_eq_nil_iff.mpr
      intro r _
      by_cases h : r.record.icao24 = a.icao24 <;> simp [h]
    rw [h1]
    simp

/-- A concrete valid record, used to instantiate witnesses. -/
def sampleRecord : AircraftRecord :=
  { icao24 := some "abc123", latitude := some 20, longitude := some 10 }

/-- C7: upserts keep at most one row per `icao24` across any sequence of
fetch cycles; ingesting the same observation twice collapses to the later
write, leaving exactly one row for that key whose `last_updated` is the
latest ingestion time; and every row written by a batch carries the
batch's ingestion time. -/
theorem claim7_upsert_semantics (t t1 t2 : ℕ) (a : AircraftRecord)
    (data : List AircraftRecord) (store : List Row)
    (cycles : List (ℕ × Bool × AdapterResult × AdapterResult)) :
    ((store.map fun r => r.record.icao24).Nodup →
      ((cycles.foldl
          (fun st c => fetchAircraftData c.1 c.2.1 c.2.2.1 c.2.2.2 st) store).map
        fun r => r.record.icao24).Nodup) ∧
    (validAircraft a = true →
      updateDatabase t2 [a] (updateDatabase t1 [a] store) =
        updateDatabase t2 [a] store) ∧
    (validAircraft a = true →
      (updateDatabase t2 [a] (updateDatabase t1 [a] store)).filter
        (fun r => r.record.icao24 = a.icao24) = [⟨a, t2⟩]) ∧
    (∀ r ∈ updateDatabase t data store, r ∈ store ∨ r.last_updated = t) := by
  refine ⟨?_, ?_, ?_, updateDatabase_last_updated t data store⟩
  · induction cycles generalizing store with
    | nil => exact fun h => h
    | cons c cycles ih =>
      intro h
      simp only [List.foldl_cons]
      exact ih _ (fetchAircraftData_keys_nodup _ _ _ _ _ h)
  · intro hv
    simp only [updateDatabase_singleton, hv, if_true]
    exact insertOrReplace_twice t1 t2 a store hv
  · intro hv
    simp only [updateDatabase_singleton, hv, if_true]
    rw [insertOrReplace_twice t1 t2 a store hv]
    exact insertOrReplace_filter_key t2 a store hv

/-- Witness for C7 on a concrete record and an empty store. -/
theorem claim7_upsert_semantics_witness :
    updateDatabase 2 [sampleRecord] (updateDatabase 1 [sampleRecord] []) =
      updateDatabase 2 [sampleRecord] [] ∧
    (updateDatabase 2 [sampleRecord] (updateDatabase 1 [sampleRecord] [])).filter
      (fun r => r.record.icao24 = sampleRecord.icao24) = [⟨sampleRecord, 2⟩] :=
  ⟨(claim7_upsert_semantics 0 1 2 sampleRecord [] [] []).2.1 (by decide),
   (claim7_upsert_semantics 0 1 2 sampleRecord [] [] []).2.2.1 (by decide)⟩

/-- Upserting the empty batch. -/
theorem updateDatabase_nil (t : ℕ) (store : List Row) :
    updateDatabase t [] store = store := rfl

/-- C4 counterexample: from the initial state, `startAircraftUpdates`
fires the initial fetch and schedules the cron job; one tick then fires
while that fetch is still in flight.  The cron callback
`() => { this.fetchAircraftData(); }` invokes a fetch unconditionally
(the `isRunning` guard only protects `startAircraftUpdates` itself), so
the reachable state after `[start, tick]` has two fetch cycles in flight,
refuting "at most one fetch cycle is in flight in every reachable
state". -/
theorem claim4_counterexample :
    ¬ (∀ s : SchedulerState, SchedulerReachable s → s.inFlight ≤ 1) := by
  intro h
  exact absurd (h ⟨true, true, 2⟩ ⟨[.start, .tick], rfl⟩) (by decide)

/-- C4 as amended: the `isRunning` flag only makes `startAircraftUpdates`
idempotent — a second call while the service runs is a no-op (no second
initial fetch, no second cron job); a cron tick, however, always starts
another fetch cycle, even while one is still in flight, so ticks are
neither skipped nor queued but run concurrently. -/
theorem claim4_amended (s : SchedulerState) :
    (s.isRunning = true → schedulerStep s .start = s) ∧
    (s.scheduled = true →
      (schedulerStep s .tick).inFlight = s.inFlight + 1) := by
  constructor
  · intro h
    simp [schedulerStep, h]
  · intro h
    simp [schedulerStep, h]

/-- Witness for the amended C4 at a state with one fetch in flight. -/
theorem claim4_amended_witness :
    schedulerStep ⟨true, true, 1⟩ .start = ⟨true, true, 1⟩ ∧
    (schedulerStep ⟨true, true, 1⟩ .tick).inFlight = 2 :=
  ⟨(claim4_amended ⟨true, true, 1⟩).1 rfl,
   (claim4_amended ⟨true, true, 1⟩).2 rfl⟩

/-- C5: if the primary adapter fails, the committed records are the
secondary adapter's (when the key is configured and the secondary yields
records); if both adapters fail or yield no records, the cycle performs
no write and the store is unchanged. -/
theorem claim5_fallback_commit (t : ℕ) (hasKey : Bool)
    (opensky aviation : AdapterResult) (store : List Row) :
    (opensky = .err → hasKey = true → aviation.records ≠ [] →
      fetchAircraftData t hasKey opensky aviation store =
        updateDatabase t aviation.records store) ∧
    (opensky.records = [] → aviation.records = [] →
      fetchAircraftData t hasKey opensky aviation store = store) := by
  constructor
  · intro h1 h2 h3
    subst h1
    subst h2
    have hlen : aviation.records.length > 0 := List.length_pos.mpr h3
    have he : (AdapterResult.err.records).length = 0 := rfl
    simp [fetchAircraftData, he, hlen]
  · intro h1 h2
    simp [fetchAircraftData, h1, h2]

/-- Witness for C5: primary fails, secondary delivers one record; and a
cycle where both deliver nothing. -/
theorem claim5_fallback_commit_witness :
    fetchAircraftData 0 true .err (.ok [sampleRecord]) [] =
      updateDatabase 0 [sampleRecord] [] ∧
    fetchAircraftData 0 true .err .err [] = [] :=
  ⟨(claim5_fallback_commit 0 true .err (.ok [sampleRecord]) []).1 rfl rfl
    (by simp [AdapterResult.records]),
   (claim5_fallback_commit 0 true .err .err []).2 rfl rfl⟩

/-- C10: without `AVIATION_API_KEY`, a failed or empty primary fetch ends
the cycle with no store write, whatever the secondary provider would have
returned. -/
theorem claim10_no_key_no_fallback (t : ℕ) (opensky aviation : AdapterResult)
    (store : List Row) (h : opensky.records = []) :
    fetchAircraftData t false opensky aviation store = store := by
  simp [fetchAircraftData, h]

/-- Witness for C10: the secondary has a record available, but without the
key the store stays empty. -/
theorem claim10_no_key_no_fallback_witness :
    fetchAircraftData 0 false .err (.ok [sampleRecord]) [] = [] :=
  claim10_no_key_no_fallback 0 .err (.ok [sampleRecord]) [] rfl

/-- C9: a raw observation whose latitude (`state[6]`) or longitude
(`state[5]`) is exactly 0 is never written: `transformOpenSkyData` maps
the 0 coordinate to null (`state[5] || null` / `state[6] || null`), and
the truthiness guard in `updateDatabase` then drops the record, leaving
the store unchanged. -/
theorem claim9_zero_coordinate_dropped (state : OpenSkyState) (t : ℕ)
    (store : List Row) (h : state.s6 = some 0 ∨ state.s5 = some 0) :
    (state.s6 = some 0 → (transformOpenSkyData state).latitude = none) ∧
    (state.s5 = some 0 → (transformOpenSkyData state).longitude = none) ∧
    validAircraft (transformOpenSkyData state) = false ∧
    updateDatabase t [transformOpenSkyData state] store = store := by
  have hv : validAircraft (transformOpenSkyData state) = false := by
    rcases h with h | h <;>
      simp [validAircraft, transformOpenSkyData, jsTruthyNum, jsOrNullNum, h]
  refine ⟨fun h6 => ?_, fun h5 => ?_, hv, ?_⟩
  · simp [transformOpenSkyData, jsOrNullNum, h6]
  · simp [transformOpenSkyData, jsOrNullNum, h5]
  · simp [updateDatabase_singleton, hv]

/-- Witness for C9: an equator observation (latitude exactly 0) with valid
identifier and longitude is dropped from an empty store. -/
theorem claim9_zero_coordinate_dropped_witness :
    updateDatabase 3
      [transformOpenSkyData { s0 := some "abc123", s5 := some 10, s6 := some 0 }]
      [] = [] :=
  (claim9_zero_coordinate_dropped
    { s0 := some "abc123", s5 := some 10, s6 := some 0 } 3 [] (Or.inl rfl)).2.2.2

/-- A second concrete valid record. -/
def sampleRecordB : AircraftRecord :=
  { icao24 := some "def456", latitude := some 21, longitude := some 11 }

/-- A third concrete valid record. -/
def sampleRecordC : AircraftRecord :=
  { icao24 := some "ghi789", latitude := some 22, longitude := some 12 }

/-- C6: the orchestrator stops at the first adapter returning a non-empty
list and commits exactly that adapter's records; in particular, when the
primary returns an empty list (not an error) and the secondary returns 3
valid records with fresh, pairwise distinct keys, exactly those 3 rows are
appended, and the store grows by exactly 3. -/
theorem claim6_first_nonempty_commit (t : ℕ) (hasKey : Bool)
    (opensky aviation : AdapterResult) (store : List Row)
    (r1 r2 r3 : AircraftRecord) :
    (opensky.records ≠ [] →
      fetchAircraftData t hasKey opensky aviation store =
        updateDatabase t opensky.records store) ∧
    (opensky = .ok [] → hasKey = true → aviation = .ok [r1, r2, r3] →
      validAircraft r1 = true → validAircraft r2 = true →
      validAircraft r3 = true →
      r1.icao24 ≠ r2.icao24 → r1.icao24 ≠ r3.icao24 → r2.icao24 ≠ r3.icao24 →
      (∀ r ∈ store, r.record.icao24 ≠ r1.icao24 ∧ r.record.icao24 ≠ r2.icao24 ∧
        r.record.icao24 ≠ r3.icao24) →
      fetchAircraftData t hasKey opensky aviation store =
        store ++ [⟨r1, t⟩, ⟨r2, t⟩, ⟨r3, t⟩] ∧
      (fetchAircraftData t hasKey opensky aviation store).length =
        store.length + 3) := by
  constructor
  · intro h
    have hlen : opensky.records.length > 0 := List.length_pos.mpr h
    simp [fetchAircraftData, hlen]
  · intro ho hk ha hv1 hv2 hv3 h12 h13 h23 hstore
    subst ho
    subst hk
    subst ha
    have hfetch : fetchAircraftData t true (.ok []) (.ok [r1, r2, r3]) store =
        updateDatabase t [r1, r2, r3] store := by
      simp [fetchAircraftData, AdapterResult.records]
    have h1 : insertOrReplace t r1 store = store ++ [⟨r1, t⟩] :=
      insertOrReplace_fresh t r1 store (fun r hr => (hstore r hr).1)
    have h2 : insertOrReplace t r2 (store ++ [⟨r1, t⟩]) =
        store ++ [⟨r1, t⟩] ++ [⟨r2, t⟩] := by
      apply insertOrReplace_fresh
      intro r hr
      rcases List.mem_append.mp hr with h' | h'
      · exact (hstore r h').2.1
      · rw [List.mem_singleton.mp h']
        exact h12
    have h3 : insertOrReplace t r3 (store ++ [⟨r1, t⟩] ++ [⟨r2, t⟩]) =
        store ++ [⟨r1, t⟩] ++ [⟨r2, t⟩] ++ [⟨r3, t⟩] := by
      apply insertOrReplace_fresh
      intro r hr
      rcases List.mem_append.mp hr with h' | h'
      · rcases List.mem_append.mp h' with h'' | h''
        · exact (hstore r h'').2.2
        · rw [List.mem_singleton.mp h'']
          exact h13
      · rw [List.mem_singleton.mp h']
        exact h23
    have hupd : updateDatabase t [r1, r2, r3] store =
        store ++ [⟨r1, t⟩, ⟨r2, t⟩, ⟨r3, t⟩] := by
      rw [updateDatabase_cons, updateDatabase_cons, updateDatabase_singleton]
      simp only [hv1, hv2, hv3, if_true]
      rw [h1, h2, h3]
      simp
    rw [hfetch, hupd]
    simp

/-- Witness for C6: the primary succeeds with one record (first conjunct);
separately, an empty primary with a 3-record secondary commits exactly
those 3 rows. -/
theorem claim6_first_nonempty_commit_witness :
    fetchAircraftData 0 true (.ok [sampleRecord]) .err [] =
      updateDatabase 0 [sampleRecord] [] ∧
    fetchAircraftData 0 true (.ok [])
        (.ok [sampleRecord, sampleRecordB, sampleRecordC]) [] =
      [⟨sampleRecord, 0⟩, ⟨sampleRecordB, 0⟩, ⟨sampleRecordC, 0⟩] ∧
    (fetchAircraftData 0 true (.ok [])
        (.ok [sampleRecord, sampleRecordB, sampleRecordC]) []).length = 3 := by
  refine ⟨?_, ?_, ?_⟩
  · exact (claim6_first_nonempty_commit 0 true (.ok [sampleRecord]) .err []
      sampleRecord sampleRecordB sampleRecordC).1 (by simp [AdapterResult.records])
  · exact ((claim6_first_nonempty_commit 0 true (.ok [])
      (.ok [sampleRecord, sampleRecordB, sampleRecordC]) []
      sampleRecord sampleRecordB sampleRecordC).2 rfl rfl rfl
      (by decide) (by decide) (by decide) (by decide) (by decide) (by decide)
      (by intro r hr; cases hr)).1
  · exact ((claim6_first_nonempty_commit 0 true (.ok [])
      (.ok [sampleRecord, sampleRecordB, sampleRecordC]) []
      sampleRecord sampleRecordB sampleRecordC).2 rfl rfl rfl
      (by decide) (by decide) (by decide) (by decide) (by decide) (by decide)
      (by intro r hr; cases hr)).2
